import Mathlib

/-!
Verification of the handle-lifecycle and reentrant-dispatch protocol of the
trywin windowing layer (`trywin/src/comm_ctrl.rs`,
`trywin/src/comm_ctrl/wndproc_wrappers.rs`,
`trywin/src/comm_ctrl/object_wrappers.rs`).

The development shallowly embeds:

* the raw window-procedure entry point `static_wndproc` of
  `wndproc_wrappers.rs` (association lookup via `GWLP_USERDATA`, the
  `WM_NCCREATE` out-of-band pointer, the `entry_count` recursion counter with
  `checked_add` overflow abort, `catch_unwind` fault containment, the
  `destroy_this` deferred-deallocation flag, and the
  free-at-count-zero rule) as a fuel-indexed interpreter `runF` over call
  trees, where a call's nested children model the re-entrant dispatch calls
  the user logic triggers synchronously;
* the `CallbackCell` / `CallbackRef` detach-execute-reattach discipline of
  `comm_ctrl.rs`;
* the liveness-gated operation surface of `WindowImpl` (`check_live`,
  `destroy`, `new_child`, `text`, `bounds`, `background`, `visible`,
  `redraw`, `snapshot`) against an oracle describing the native runtime's
  responses;
* the `commctrl` flag each of the four raw entry points passes to the user
  dispatch logic.
-/

set_option maxRecDepth 4096

/-- Windows message number `WM_NCCREATE` (0x0081): the pre-creation
notification that carries the `StaticWndprocState` pointer out-of-band in
`CREATESTRUCTW::lpCreateParams`. -/
def wmNCCREATE : Nat := 0x0081

/-- Windows message number `WM_NCDESTROY` (0x0082): the terminal
pre-destruction notification. -/
def wmNCDESTROY : Nat := 0x0082

/-- Number of values of a `u32`; `entry_count` is a `Cell<u32>` and is
incremented with `checked_add`, so `u32Size - 1` is the value at which the
increment overflows and the code aborts. -/
def u32Size : Nat := 2 ^ 32

/-- The observable state of one `StaticWndprocState` allocation
(`wndproc_wrappers.rs`, struct at lines 176-181), together with
book-keeping for deallocations.

* `assoc` — whether `GWLP_USERDATA` currently holds the pointer `p` to this
  state (the identity→DispatchState association).
* `hwnd` — the shared `Rc<Cell<HWND>>` handle cell; `none` models `HWND(0)`.
* `entryCount` — the `entry_count : Cell<u32>` recursion counter.
* `destroyThis` — the `destroy_this : Cell<bool>` pending-teardown flag.
* `freeCount` — how many times `drop(Box::from_raw(p))` has run; in the real
  program any value above 1 is a double free. -/
structure WndState where
  assoc : Bool
  hwnd : Option Nat
  entryCount : Nat
  destroyThis : Bool
  freeCount : Nat
deriving DecidableEq, Repr

/-- One inbound native call to `static_wndproc`, as a tree: `nested` are the
re-entrant dispatch calls the user dispatch logic (`WindowProc::wndproc`)
triggers synchronously before returning; `panics` says whether the user
logic then raises a panic (caught by `catch_unwind` at the boundary);
`retv` is the `LRESULT` the user logic returns when it does not panic. -/
inductive Call where
  | mk (message : Nat) (handle : Nat) (retv : Int) (panics : Bool) (nested : List Call)

/-- Result of one dispatch call: either an `LRESULT` value produced through
the wrapper (`res.unwrap_or(LRESULT(0))`), or the result of forwarding to
`DefWindowProcW` when no association resolves. -/
inductive LRes where
  | val (v : Int)
  | defRes
deriving DecidableEq, Repr

/-- Instrumentation events: `enter v` / `exitv v` record the value of
`entry_count` right after the increment / decrement, `free` records a
`drop(Box::from_raw(p))`, and `deflt` records a direct forward to
`DefWindowProcW` because no association resolved. -/
inductive Ev where
  | enter (v : Nat)
  | exitv (v : Nat)
  | free
  | deflt
deriving DecidableEq, Repr

/-- Step 1 of `static_wndproc` for `WM_NCCREATE` (lines 224-230): store `p`
in `GWLP_USERDATA` and set the handle cell if it is still null; identity on
the state for every other message. -/
def resolveNC (s : WndState) (message handle : Nat) : WndState :=
  if message = wmNCCREATE then
    { s with assoc := true, hwnd := if s.hwnd = none then some handle else s.hwnd }
  else s

/-- Step 5 of `static_wndproc` (lines 259-264): when the message is
`WM_NCDESTROY` or the user logic panicked, schedule the deallocation, clear
`GWLP_USERDATA` and null the handle cell. -/
def teardown (s : WndState) (message : Nat) (panics : Bool) : WndState :=
  if message = wmNCDESTROY ∨ panics = true then
    { s with destroyThis := true, assoc := false, hwnd := none }
  else s

/-- Step 6 of `static_wndproc` (lines 266-272): decrement `entry_count`,
then free the state if the count is now 0 and teardown is pending. -/
def decFreeS (s : WndState) : WndState :=
  if s.entryCount - 1 = 0 ∧ s.destroyThis = true then
    { s with entryCount := s.entryCount - 1, freeCount := s.freeCount + 1 }
  else
    { s with entryCount := s.entryCount - 1 }

/-- Trace events emitted by `decFreeS`: a `free` exactly when the
deallocation guard fires. -/
def decFreeTr (s : WndState) : List Ev :=
  if s.entryCount - 1 = 0 ∧ s.destroyThis = true then [Ev.free] else []

/-- Fuel-indexed interpreter for a sequence of dispatch calls through
`static_wndproc` (`wndproc_wrappers.rs` lines 216-275), for the single
`StaticWndprocState` under study.  Outer `none` means the fuel ran out;
`some none` models a process abort (`entry_count` overflow); otherwise the
final state, the `LRESULT` of each call in the sequence, and the
instrumentation trace are returned.

Per call: resolve the state (for `WM_NCCREATE` via `lpCreateParams`,
otherwise via `GWLP_USERDATA`, forwarding to `DefWindowProcW` when that is
null); increment `entry_count` with `checked_add`, aborting on overflow;
run the user logic, i.e. its nested re-entrant dispatch calls followed by
an optional panic caught at this boundary; perform the teardown step when
the message is `WM_NCDESTROY` or a panic was caught; decrement the counter
and free the state if it reached 0 with teardown pending; return
`res.unwrap_or(LRESULT(0))`. -/
def runF : Nat → WndState → List Call → Option (Option (WndState × List LRes × List Ev))
  | 0, _, _ => none
  | _ + 1, s, [] => some (some (s, [], []))
  | f + 1, s, Call.mk message handle retv panics nested :: rest =>
    if message = wmNCCREATE ∨ s.assoc = true then
      if s.entryCount + 1 < u32Size then
        match runF f { resolveNC s message handle with entryCount := s.entryCount + 1 } nested with
        | none => none
        | some none => some none
        | some (some (s3, _, trN)) =>
          match runF f (decFreeS (teardown s3 message panics)) rest with
          | none => none
          | some none => some none
          | some (some (s7, rs, trR)) =>
            some (some (s7,
              (if panics = true then LRes.val 0 else LRes.val retv) :: rs,
              (Ev.enter (s.entryCount + 1) ::
                (trN ++ Ev.exitv (s3.entryCount - 1) :: decFreeTr (teardown s3 message panics)))
                ++ trR))
      else some none
    else
      match runF f s rest with
      | none => none
      | some none => some none
      | some (some (s2, rs, tr)) =>
        some (some (s2, LRes.defRes :: rs, Ev.deflt :: tr))

/-- State of a `StaticWndprocState` right after `CreateWindowExW` returned
for a primary (non-control) window: the `WM_NCCREATE` call has installed
the association and set the handle cell to the created handle, no call is
in flight, no teardown is pending, nothing has been freed. -/
def postCreate (handle : Nat) : WndState :=
  { assoc := true, hwnd := some handle, entryCount := 0, destroyThis := false, freeCount := 0 }

/-- Check an instrumentation trace against the true number of live dispatch
frames: starting from `d` live frames, every `enter v` must record
`v = d + 1` and every `exitv v` must record `v = d - 1`; returns the final
frame count when every recorded counter value is truthful. -/
def depthOk : Nat → List Ev → Option Nat
  | d, [] => some d
  | d, Ev.enter v :: r => if v = d + 1 then depthOk (d + 1) r else none
  | d, Ev.exitv v :: r => if v + 1 = d then depthOk v r else none
  | d, Ev.free :: r => depthOk d r
  | d, Ev.deflt :: r => depthOk d r

mutual

/-- A call tree in which the pre-creation notification `WM_NCCREATE` never
occurs: the foreign runtime delivers `WM_NCCREATE` exactly once per window,
during `CreateWindowExW`, so every dispatch sequence it can deliver after
creation satisfies this. -/
inductive NoCreateC : Call → Prop where
  | mk : ∀ message handle retv panics nested, message ≠ wmNCCREATE →
      NoCreateL nested → NoCreateC (Call.mk message handle retv panics nested)

/-- A list of call trees each satisfying `NoCreateC`. -/
inductive NoCreateL : List Call → Prop where
  | nil : NoCreateL []
  | cons : ∀ c cs, NoCreateC c → NoCreateL cs → NoCreateL (c :: cs)

end

/-- Resolution never touches the recursion counter. -/
@[simp] theorem resolveNC_entryCount (s : WndState) (m h : Nat) :
    (resolveNC s m h).entryCount = s.entryCount := by
  unfold resolveNC; split <;> rfl

/-- Resolution never touches the pending-teardown flag. -/
@[simp] theorem resolveNC_destroyThis (s : WndState) (m h : Nat) :
    (resolveNC s m h).destroyThis = s.destroyThis := by
  unfold resolveNC; split <;> rfl

/-- Resolution never deallocates. -/
@[simp] theorem resolveNC_freeCount (s : WndState) (m h : Nat) :
    (resolveNC s m h).freeCount = s.freeCount := by
  unfold resolveNC; split <;> rfl

/-- For any message other than `WM_NCCREATE`, resolution is the identity. -/
theorem resolveNC_of_ne (s : WndState) (m h : Nat) (hm : m ≠ wmNCCREATE) :
    resolveNC s m h = s := by
  unfold resolveNC; rw [if_neg hm]

/-- The teardown step never touches the recursion counter. -/
@[simp] theorem teardown_entryCount (s : WndState) (m : Nat) (p : Bool) :
    (teardown s m p).entryCount = s.entryCount := by
  unfold teardown; split <;> rfl

/-- The teardown step never deallocates. -/
@[simp] theorem teardown_freeCount (s : WndState) (m : Nat) (p : Bool) :
    (teardown s m p).freeCount = s.freeCount := by
  unfold teardown; split <;> rfl

/-- The teardown step never clears the pending-teardown flag. -/
theorem teardown_destroy_mono (s : WndState) (m : Nat) (p : Bool)
    (hd : s.destroyThis = true) : (teardown s m p).destroyThis = true := by
  unfold teardown; split <;> simp [hd]

/-- The teardown step never re-establishes the association. -/
theorem teardown_assoc_le (s : WndState) (m : Nat) (p : Bool)
    (ha : s.assoc = false) : (teardown s m p).assoc = false := by
  unfold teardown; split <;> simp [ha]

/-- The teardown step never re-fills the handle cell. -/
theorem teardown_hwnd_le (s : WndState) (m : Nat) (p : Bool)
    (hh : s.hwnd = none) : (teardown s m p).hwnd = none := by
  unfold teardown; split <;> simp [hh]

/-- When the teardown condition fires, all three teardown effects happen. -/
theorem teardown_of_cond (s : WndState) (m : Nat) (p : Bool)
    (hc : m = wmNCDESTROY ∨ p = true) :
    teardown s m p = { s with destroyThis := true, assoc := false, hwnd := none } := by
  unfold teardown; rw [if_pos hc]

/-- When the teardown condition does not fire, the state is untouched. -/
theorem teardown_of_not_cond (s : WndState) (m : Nat) (p : Bool)
    (hc : ¬(m = wmNCDESTROY ∨ p = true)) : teardown s m p = s := by
  unfold teardown; rw [if_neg hc]

/-- The decrement-and-maybe-free step decrements the counter. -/
@[simp] theorem decFreeS_entryCount (s : WndState) :
    (decFreeS s).entryCount = s.entryCount - 1 := by
  unfold decFreeS; split <;> rfl

/-- The decrement-and-maybe-free step keeps the pending-teardown flag. -/
@[simp] theorem decFreeS_destroyThis (s : WndState) :
    (decFreeS s).destroyThis = s.destroyThis := by
  unfold decFreeS; split <;> rfl

/-- The decrement-and-maybe-free step keeps the association. -/
@[simp] theorem decFreeS_assoc (s : WndState) : (decFreeS s).assoc = s.assoc := by
  unfold decFreeS; split <;> rfl

/-- The decrement-and-maybe-free step keeps the handle cell. -/
@[simp] theorem decFreeS_hwnd (s : WndState) : (decFreeS s).hwnd = s.hwnd := by
  unfold decFreeS; split <;> rfl

/-- No deallocation happens while the decremented counter is still positive:
frames are still live. -/
theorem decFreeS_freeCount_of_pos (s : WndState) (hp : 1 ≤ s.entryCount - 1) :
    (decFreeS s).freeCount = s.freeCount := by
  unfold decFreeS
  rw [if_neg]
  intro hc
  omega

/-- When the decremented counter reaches 0, the state is freed exactly when
teardown is pending. -/
theorem decFreeS_freeCount_of_zero (s : WndState) (hz : s.entryCount - 1 = 0) :
    (decFreeS s).freeCount =
      if s.destroyThis = true then s.freeCount + 1 else s.freeCount := by
  unfold decFreeS
  by_cases hd : s.destroyThis = true
  · rw [if_pos ⟨hz, hd⟩, if_pos hd]
  · rw [if_neg (by intro hc; exact hd hc.2), if_neg hd]

/-- Balance and frame-safety of the dispatch protocol: whenever `runF`
returns normally, the entry counter is restored to its initial value, no
deallocation happens while at least one frame is live on entry, and the
pending-teardown flag is never cleared. -/
theorem runF_basic : ∀ f s cs out, runF f s cs = some (some out) →
    out.1.entryCount = s.entryCount ∧
    (1 ≤ s.entryCount → out.1.freeCount = s.freeCount) ∧
    (s.destroyThis = true → out.1.destroyThis = true) := by
  intro f
  induction f with
  | zero => intro s cs out h; simp [runF] at h
  | succ f ih =>
    intro s cs out h
    match cs with
    | [] =>
      simp only [runF, Option.some.injEq] at h
      subst h
      exact ⟨rfl, fun _ => rfl, fun hd => hd⟩
    | Call.mk message handle retv panics nested :: rest =>
      simp only [runF] at h
      split at h
      · split at h
        · -- resolved and no overflow: split on the nested run, then the rest run
          split at h
          · exact absurd h (by simp)
          · exact absurd h (by simp)
          · rename_i s3 rsN trN heqN
            split at h
            · exact absurd h (by simp)
            · exact absurd h (by simp)
            · rename_i s7 rs trR heqR
              simp only [Option.some.injEq] at h
              subst h
              obtain ⟨h1, h2, h3⟩ := ih _ _ _ heqN
              obtain ⟨h4, h5, h6⟩ := ih _ _ _ heqR
              simp only [resolveNC_entryCount, resolveNC_freeCount,
                resolveNC_destroyThis] at h1 h2 h3
              simp only [decFreeS_entryCount, decFreeS_destroyThis,
                teardown_entryCount] at h4 h5 h6
              refine ⟨?_, ?_, ?_⟩
              · show s7.entryCount = s.entryCount
                omega
              · intro hpos
                show s7.freeCount = s.freeCount
                have e2 : s3.freeCount = s.freeCount := h2 (by omega)
                have e5 : s7.freeCount = (decFreeS (teardown s3 message panics)).freeCount :=
                  h5 (by omega)
                rw [e5, decFreeS_freeCount_of_pos _ (by simp only [teardown_entryCount]; omega),
                  teardown_freeCount, e2]
              · intro hd
                show s7.destroyThis = true
                exact h6 (teardown_destroy_mono _ _ _ (h3 hd))
        · exact absurd h (by simp)
      · -- association did not resolve: forwarded to the default handler
        split at h
        · exact absurd h (by simp)
        · exact absurd h (by simp)
        · rename_i s2 rs tr heqR
          simp only [Option.some.injEq] at h
          subst h
          obtain ⟨h1, h2, h3⟩ := ih _ _ _ heqR
          exact ⟨h1, h2, h3⟩

/-- The depth check distributes over concatenated traces. -/
theorem depthOk_append (a b : List Ev) :
    ∀ d, depthOk d (a ++ b) = (depthOk d a).bind (fun e => depthOk e b) := by
  induction a with
  | nil => intro d; rfl
  | cons e r ihr =>
    intro d
    cases e with
    | enter v =>
      simp only [List.cons_append, depthOk]
      split
      · exact ihr _
      · rfl
    | exitv v =>
      simp only [List.cons_append, depthOk]
      split
      · exact ihr _
      · rfl
    | free => simpa only [List.cons_append, depthOk] using ihr d
    | deflt => simpa only [List.cons_append, depthOk] using ihr d

/-- The optional `free` event emitted at the end of a frame does not affect
the depth check. -/
theorem depthOk_decFreeTr (s : WndState) (d : Nat) :
    depthOk d (decFreeTr s) = some d := by
  unfold decFreeTr; split <;> rfl

/-- Every counter value recorded in a trace of the dispatch protocol equals
the true number of live dispatch frames at that instant: starting the depth
check at the initial counter value validates the whole trace and ends back
at that value. -/
theorem runF_depth : ∀ f s cs out, runF f s cs = some (some out) →
    depthOk s.entryCount out.2.2 = some s.entryCount := by
  intro f
  induction f with
  | zero => intro s cs out h; simp [runF] at h
  | succ f ih =>
    intro s cs out h
    match cs with
    | [] =>
      simp only [runF, Option.some.injEq] at h
      subst h
      rfl
    | Call.mk message handle retv panics nested :: rest =>
      simp only [runF] at h
      split at h
      · split at h
        · split at h
          · exact absurd h (by simp)
          · exact absurd h (by simp)
          · rename_i s3 rsN trN heqN
            split at h
            · exact absurd h (by simp)
            · exact absurd h (by simp)
            · rename_i s7 rs trR heqR
              simp only [Option.some.injEq] at h
              subst h
              obtain ⟨bal3, -, -⟩ := runF_basic _ _ _ _ heqN
              simp only [resolveNC_entryCount] at bal3
              have hN := ih _ _ _ heqN
              have hR := ih _ _ _ heqR
              dsimp only at hN
              simp only [decFreeS_entryCount, teardown_entryCount, bal3,
                Nat.add_sub_cancel] at hR
              show depthOk s.entryCount
                ((Ev.enter (s.entryCount + 1) ::
                  (trN ++ Ev.exitv (s3.entryCount - 1) :: decFreeTr (teardown s3 message panics)))
                  ++ trR) = some s.entryCount
              have hexit : s3.entryCount - 1 = s.entryCount := by omega
              rw [List.cons_append, depthOk, if_pos rfl, List.append_assoc, depthOk_append, hN,
                Option.some_bind, List.cons_append, hexit, depthOk, if_pos rfl,
                depthOk_append, depthOk_decFreeTr, Option.some_bind, hR]
        · exact absurd h (by simp)
      · split at h
        · exact absurd h (by simp)
        · exact absurd h (by simp)
        · rename_i s2 rs tr heqR
          simp only [Option.some.injEq] at h
          subst h
          show depthOk s.entryCount (Ev.deflt :: tr) = some s.entryCount
          simp only [depthOk]
          exact ih _ _ _ heqR

/-- Lifecycle invariants of the dispatch protocol over call sequences the
foreign runtime can actually deliver after creation (no repeated
`WM_NCCREATE`): an unassociated state is never touched; "teardown pending
implies unassociated" is preserved; an absent handle cell stays absent;
"handle cell absent iff teardown pending" is preserved; and from an idle
boundary (no live frame) the deallocation count always equals 1 when
teardown is pending and 0 otherwise. -/
theorem runF_nc : ∀ f s cs out, runF f s cs = some (some out) → NoCreateL cs →
    ((s.assoc = false → out.1 = s) ∧
     ((s.destroyThis = true → s.assoc = false) →
        out.1.destroyThis = true → out.1.assoc = false) ∧
     (s.hwnd = none → out.1.hwnd = none) ∧
     ((s.hwnd = none ↔ s.destroyThis = true) →
        (out.1.hwnd = none ↔ out.1.destroyThis = true)) ∧
     (s.entryCount = 0 → s.freeCount = (if s.destroyThis = true then 1 else 0) →
        (s.destroyThis = true → s.assoc = false) →
        out.1.freeCount = (if out.1.destroyThis = true then 1 else 0))) := by
  intro f
  induction f with
  | zero => intro s cs out h _; simp [runF] at h
  | succ f ih =>
    intro s cs out h hnc
    match cs with
    | [] =>
      simp only [runF, Option.some.injEq] at h
      subst h
      exact ⟨fun _ => rfl, fun hB hd => hB hd, fun hh => hh, fun hi => hi, fun _ hf _ => hf⟩
    | Call.mk message handle retv panics nested :: rest =>
      cases hnc with
      | cons _ _ hncC hncR =>
      cases hncC with
      | mk _ _ _ _ _ hmsg hncN =>
      simp only [runF] at h
      split at h
      · rename_i hres
        have hsa : s.assoc = true := by
          cases hres with
          | inl hmc => exact absurd hmc hmsg
          | inr hA => exact hA
        split at h
        · rename_i hov
          split at h
          · exact absurd h (by simp)
          · exact absurd h (by simp)
          · rename_i s3 rsN trN heqN
            rw [resolveNC_of_ne s message handle hmsg] at heqN
            split at h
            · exact absurd h (by simp)
            · exact absurd h (by simp)
            · rename_i s7 rs trR heqR
              simp only [Option.some.injEq] at h
              subst h
              obtain ⟨bal3, fr3, dm3⟩ := runF_basic _ _ _ _ heqN
              obtain ⟨nA, nB, nC, nD, nE⟩ := ih _ _ _ heqN hncN
              obtain ⟨rA, rB, rC, rD, rE⟩ := ih _ _ _ heqR hncR
              dsimp only at bal3 fr3 dm3 nA nB nC nD nE
              have hs4B : (s.destroyThis = true → s.assoc = false) →
                  ((teardown s3 message panics).destroyThis = true →
                    (teardown s3 message panics).assoc = false) := by
                intro hBs
                have nBc : s3.destroyThis = true → s3.assoc = false := nB hBs
                unfold teardown
                split
                · intro _; rfl
                · exact nBc
              refine ⟨?_, ?_, ?_, ?_, ?_⟩
              · intro hsa0
                rw [hsa0] at hsa
                exact absurd hsa (by simp)
              · show (s.destroyThis = true → s.assoc = false) →
                  s7.destroyThis = true → s7.assoc = false
                intro hBs hdo
                have h6B := hs4B hBs
                refine rB ?_ hdo
                simpa only [decFreeS_destroyThis, decFreeS_assoc] using h6B
              · show s.hwnd = none → s7.hwnd = none
                intro hh
                have h3h : s3.hwnd = none := nC hh
                refine rC ?_
                simpa only [decFreeS_hwnd] using teardown_hwnd_le _ _ _ h3h
              · show (s.hwnd = none ↔ s.destroyThis = true) →
                  (s7.hwnd = none ↔ s7.destroyThis = true)
                intro hiff
                have hiff3 : s3.hwnd = none ↔ s3.destroyThis = true := nD hiff
                have hiff4 : (teardown s3 message panics).hwnd = none ↔
                    (teardown s3 message panics).destroyThis = true := by
                  unfold teardown
                  split
                  · simp
                  · exact hiff3
                refine rD ?_
                simpa only [decFreeS_hwnd, decFreeS_destroyThis] using hiff4
              · show s.entryCount = 0 →
                  s.freeCount = (if s.destroyThis = true then 1 else 0) →
                  (s.destroyThis = true → s.assoc = false) →
                  s7.freeCount = (if s7.destroyThis = true then 1 else 0)
                intro hent hfre hBs
                have hdf : s.destroyThis = false := by
                  cases hsd : s.destroyThis
                  · rfl
                  · rw [hBs hsd] at hsa
                    exact absurd hsa (by simp)
                rw [hdf] at hfre
                simp only [Bool.false_eq_true, if_false] at hfre
                have hfr3 : s3.freeCount = 0 := by
                  have := fr3 (by omega)
                  omega
                have hent4 : (teardown s3 message panics).entryCount = 1 := by
                  rw [teardown_entryCount]
                  omega
                have hfre6 : (decFreeS (teardown s3 message panics)).freeCount =
                    (if (decFreeS (teardown s3 message panics)).destroyThis = true
                      then 1 else 0) := by
                  rw [decFreeS_freeCount_of_zero _ (by rw [hent4]), decFreeS_destroyThis,
                    teardown_freeCount, hfr3]
                have hent6 : (decFreeS (teardown s3 message panics)).entryCount = 0 := by
                  rw [decFreeS_entryCount, hent4]
                have h6B := hs4B hBs
                refine rE hent6 hfre6 ?_
                simpa only [decFreeS_destroyThis, decFreeS_assoc] using h6B
        · exact absurd h (by simp)
      · split at h
        · exact absurd h (by simp)
        · exact absurd h (by simp)
        · rename_i s2 rs tr heqR
          simp only [Option.some.injEq] at h
          subst h
          obtain ⟨rA, rB, rC, rD, rE⟩ := ih _ _ _ heqR hncR
          exact ⟨rA, rB, rC, rD, rE⟩

/-- C5: on every dispatch call that resolves its DispatchState, incrementing
the entry counter checks for overflow — at counter value `u32Size - 1` the
`checked_add` fails and the process aborts (`some none`) instead of
wrapping — and whenever a run returns normally the counter is restored to
its initial value and every counter value recorded during the run equals
the true number of live dispatch frames at that instant (`depthOk`). -/
theorem entry_counter_never_lies :
    (∀ f s message handle retv panics nested,
      (message = wmNCCREATE ∨ s.assoc = true) → s.entryCount = u32Size - 1 →
      runF (f + 1) s [Call.mk message handle retv panics nested] = some none) ∧
    (∀ f s cs out, runF f s cs = some (some out) →
      out.1.entryCount = s.entryCount ∧
      depthOk s.entryCount out.2.2 = some s.entryCount) := by
  constructor
  · intro f s message handle retv panics nested hres hcnt
    simp only [runF]
    rw [if_pos hres, if_neg]
    rw [hcnt]
    decide
  · intro f s cs out h
    exact ⟨(runF_basic _ _ _ _ h).1, runF_depth _ _ _ _ h⟩

/-- Concrete dispatch state with the entry counter at the `u32` maximum:
the next resolved call would overflow the counter. -/
def wOver : WndState := WndState.mk true (some 7) (u32Size - 1) false 0

/-- Concrete post-creation teardown run: a single `WM_NCDESTROY` dispatch
call. -/
def wTearCalls : List Call := [Call.mk wmNCDESTROY 7 0 false []]

/-- Result of running `wTearCalls` from `postCreate 7`. -/
def wTearOut : WndState × List LRes × List Ev :=
  (WndState.mk false none 0 true 1, [LRes.val 0], [Ev.enter 1, Ev.exitv 0, Ev.free])

/-- The teardown run contains no pre-creation notification. -/
theorem wTearCalls_nc : NoCreateL wTearCalls :=
  NoCreateL.cons _ _ (NoCreateC.mk _ _ _ _ _ (by decide) NoCreateL.nil) NoCreateL.nil

/-- Witness for `entry_counter_never_lies` at concrete inputs: the
overflow-abort branch at counter `u32Size - 1`, and the balance/depth
conclusion on a concrete teardown run. -/
theorem entry_counter_never_lies_witness :
    (((1 : Nat) = wmNCCREATE ∨ wOver.assoc = true) ∧ wOver.entryCount = u32Size - 1 ∧
      runF 1 wOver [Call.mk 1 7 0 false []] = some none) ∧
    (runF 3 (postCreate 7) wTearCalls = some (some wTearOut) ∧
      wTearOut.1.entryCount = (postCreate 7).entryCount ∧
      depthOk (postCreate 7).entryCount wTearOut.2.2 = some (postCreate 7).entryCount) :=
  ⟨⟨Or.inr rfl, rfl, entry_counter_never_lies.1 0 wOver 1 7 0 false [] (Or.inr rfl) rfl⟩,
   ⟨by decide, entry_counter_never_lies.2 3 (postCreate 7) wTearCalls wTearOut (by decide)⟩⟩

/-- C1: over every post-creation dispatch sequence the foreign runtime can
deliver (no repeated pre-creation notification), the DispatchState is
deallocated exactly once when teardown was triggered and never otherwise
(`freeCount` equals 1 precisely when the pending-teardown flag was set);
and no deallocation ever happens while an outer dispatch frame is still
executing (entry counter at least 1 on entry). -/
theorem dispatchState_freed_exactly_once :
    (∀ f hh cs out, NoCreateL cs → runF f (postCreate hh) cs = some (some out) →
      out.1.freeCount = (if out.1.destroyThis = true then 1 else 0)) ∧
    (∀ f s cs out, 1 ≤ s.entryCount → runF f s cs = some (some out) →
      out.1.freeCount = s.freeCount) := by
  constructor
  · intro f hh cs out hnc h
    refine (runF_nc f (postCreate hh) cs out h hnc).2.2.2.2 rfl rfl ?_
    intro hd
    simp [postCreate] at hd
  · intro f s cs out hpos h
    exact (runF_basic _ _ _ _ h).2.1 hpos

/-- Concrete state with one live outer frame, used to witness that nested
runs never deallocate. -/
def wNest : WndState := WndState.mk true (some 7) 1 false 5

/-- A single plain dispatch call (message 1). -/
def wNestCalls : List Call := [Call.mk 1 7 0 false []]

/-- Result of running `wNestCalls` from `wNest`: the state is unchanged and
nothing is freed. -/
def wNestOut : WndState × List LRes × List Ev :=
  (wNest, [LRes.val 0], [Ev.enter 2, Ev.exitv 1])

/-- Witness for `dispatchState_freed_exactly_once`: a concrete teardown run
from the post-creation state frees exactly once, and a concrete run with a
live outer frame frees nothing. -/
theorem dispatchState_freed_exactly_once_witness :
    (NoCreateL wTearCalls ∧ runF 3 (postCreate 7) wTearCalls = some (some wTearOut) ∧
      wTearOut.1.freeCount = (if wTearOut.1.destroyThis = true then 1 else 0)) ∧
    (1 ≤ wNest.entryCount ∧ runF 3 wNest wNestCalls = some (some wNestOut) ∧
      wNestOut.1.freeCount = wNest.freeCount) :=
  ⟨⟨wTearCalls_nc, by decide,
    dispatchState_freed_exactly_once.1 3 7 wTearCalls wTearOut wTearCalls_nc (by decide)⟩,
   ⟨by decide, by decide,
    dispatchState_freed_exactly_once.2 3 wNest wNestCalls wNestOut (by decide) (by decide)⟩⟩

/-- C2: a dispatch call whose user logic raises a panic behaves exactly as
if the terminal pre-destruction notification had arrived — pending-teardown
set, association removed, handle cell cleared to Absent — and returns the
safe default result `LRESULT(0)`; the panic is caught by `catch_unwind` at
the boundary, so the call returns normally instead of unwinding into the
foreign frame. -/
theorem dispatch_fault_contained : ∀ f s message handle retv nested out,
    (message = wmNCCREATE ∨ s.assoc = true) →
    runF f s [Call.mk message handle retv true nested] = some (some out) →
    out.1.destroyThis = true ∧ out.1.assoc = false ∧ out.1.hwnd = none ∧
      out.2.1 = [LRes.val 0] := by
  intro f s message handle retv nested out hres h
  cases f with
  | zero => simp [runF] at h
  | succ f =>
    simp only [runF] at h
    rw [if_pos hres] at h
    split at h
    · split at h
      · exact absurd h (by simp)
      · exact absurd h (by simp)
      · rename_i s3 rsN trN heqN
        split at h
        · exact absurd h (by simp)
        · exact absurd h (by simp)
        · rename_i s7 rs trR heqR
          simp only [Option.some.injEq] at h
          subst h
          have ht : teardown s3 message true =
              { s3 with destroyThis := true, assoc := false, hwnd := none } :=
            teardown_of_cond _ _ _ (Or.inr rfl)
          cases f with
          | zero => simp [runF] at heqR
          | succ g =>
            simp only [runF, Option.some.injEq, Prod.mk.injEq] at heqR
            obtain ⟨h7, hrs, htr⟩ := heqR
            subst h7
            subst hrs
            subst htr
            refine ⟨?_, ?_, ?_, ?_⟩
            · show (decFreeS (teardown s3 message true)).destroyThis = true
              rw [decFreeS_destroyThis, ht]
            · show (decFreeS (teardown s3 message true)).assoc = false
              rw [decFreeS_assoc, ht]
            · show (decFreeS (teardown s3 message true)).hwnd = none
              rw [decFreeS_hwnd, ht]
            · show ((if (true : Bool) = true then LRes.val 0 else LRes.val retv) :: []) =
                [LRes.val 0]
              simp
    · exact absurd h (by simp)

/-- Result of a panicking dispatch call from the post-creation state. -/
def wPanicOut : WndState × List LRes × List Ev :=
  (WndState.mk false none 0 true 1, [LRes.val 0], [Ev.enter 1, Ev.exitv 0, Ev.free])

/-- Witness for `dispatch_fault_contained`: a concrete panicking call on a
live post-creation state tears the node down and returns `LRESULT(0)`. -/
theorem dispatch_fault_contained_witness :
    (((1 : Nat) = wmNCCREATE ∨ (postCreate 7).assoc = true) ∧
      runF 2 (postCreate 7) [Call.mk 1 7 5 true []] = some (some wPanicOut)) ∧
    (wPanicOut.1.destroyThis = true ∧ wPanicOut.1.assoc = false ∧
      wPanicOut.1.hwnd = none ∧ wPanicOut.2.1 = [LRes.val 0]) :=
  ⟨⟨Or.inr rfl, by decide⟩,
   dispatch_fault_contained 2 (postCreate 7) 1 7 5 [] wPanicOut (Or.inr rfl) (by decide)⟩

/-- Pre-creation state: no association, empty handle cell. -/
def cexInit : WndState := WndState.mk false none 0 false 0

/-- Adversarial call sequence refuting irreversibility of the handle cell:
the window is created (`WM_NCCREATE`); then a plain call arrives whose user
logic synchronously nests the terminal `WM_NCDESTROY` (which clears the
cell and schedules teardown) followed by a second, identical-looking
`WM_NCCREATE` carrying the same out-of-band pointer. -/
def cexCalls : List Call :=
  [Call.mk wmNCCREATE 7 0 false [],
   Call.mk 1 7 0 false
     [Call.mk wmNCDESTROY 7 0 false [],
      Call.mk wmNCCREATE 7 0 false []]]

/-- C4 counterexample: after `cexCalls` the teardown has completed
(`destroyThis = true`, the state was freed once), yet the handle cell holds
`some 7` again — the guard `if (*p).hwnd.get() == HWND(0)` at
`wndproc_wrappers.rs:228` happily re-fills a cell that was already cleared
by the terminal notification, so a later identical-looking call does flip
the cell back to Present. -/
theorem handleCell_absent_irreversible_cex :
    (runF 9 cexInit cexCalls).map (Option.map
      (fun out => (out.1.hwnd, out.1.destroyThis, out.1.freeCount))) =
      some (some (some 7, true, 1)) := by
  decide

/-- C4 (amended): provided the pre-creation notification is never delivered
again after creation — which is how the foreign runtime behaves — the
handle cell of a post-creation node is Present exactly until the terminal
notification (or a contained fault) is dispatched, and once Absent it never
becomes Present again. -/
theorem handleCell_lifecycle_amended :
    (∀ f hh cs out, NoCreateL cs → runF f (postCreate hh) cs = some (some out) →
      (out.1.hwnd = none ↔ out.1.destroyThis = true)) ∧
    (∀ f s cs out, NoCreateL cs → s.hwnd = none → runF f s cs = some (some out) →
      out.1.hwnd = none) := by
  constructor
  · intro f hh cs out hnc h
    refine (runF_nc f (postCreate hh) cs out h hnc).2.2.2.1 ?_
    simp [postCreate]
  · intro f s cs out hnc hh h
    exact (runF_nc f s cs out h hnc).2.2.1 hh

/-- Torn-down idle state: handle cell Absent after teardown completed. -/
def wGone : WndState := WndState.mk false none 0 true 1

/-- Witness for `handleCell_lifecycle_amended`: a concrete teardown run
from the post-creation state ends with the cell Absent and teardown
pending, and a further run from the torn-down state leaves the cell
Absent. -/
theorem handleCell_lifecycle_amended_witness :
    (NoCreateL wTearCalls ∧ runF 3 (postCreate 7) wTearCalls = some (some wTearOut) ∧
      (wTearOut.1.hwnd = none ↔ wTearOut.1.destroyThis = true)) ∧
    (wGone.hwnd = none ∧
      runF 3 wGone wNestCalls = some (some (wGone, [LRes.defRes], [Ev.deflt])) ∧
      (wGone, ([LRes.defRes] : List LRes), ([Ev.deflt] : List Ev)).1.hwnd = none) :=
  ⟨⟨wTearCalls_nc, by decide,
    handleCell_lifecycle_amended.1 3 7 wTearCalls wTearOut wTearCalls_nc (by decide)⟩,
   ⟨rfl, by decide,
    handleCell_lifecycle_amended.2 3 wGone wNestCalls
      (wGone, [LRes.defRes], [Ev.deflt])
      (NoCreateL.cons _ _ (NoCreateC.mk _ _ _ _ _ (by decide) NoCreateL.nil) NoCreateL.nil)
      rfl (by decide)⟩⟩

/-- The `Callback` enum of `comm_ctrl.rs` (lines 186-192): a slot is Empty,
Filled with a callback (callbacks are identified by a code), or Borrowed
while an instance is executing (detached). -/
inductive Callback where
  | empty
  | filled (f : Nat)
  | borrowed
deriving DecidableEq, Repr

/-- `CallbackCell::set` (`comm_ctrl.rs` lines 197-203): unconditionally
replace the stored value — `Filled` for `Some`, `Empty` for `None` —
whatever the current state is (including Borrowed). -/
def CallbackCell.set (_s : Callback) (v : Option Nat) : Callback :=
  match v with
  | some f => Callback.filled f
  | none => Callback.empty

/-- `CallbackCell::borrow` (`comm_ctrl.rs` lines 205-212): detach by
`mem::replace`-ing the cell with `Borrowed`; the returned payload is the
callback if the cell was Filled, nothing otherwise. -/
def CallbackCell.borrow (s : Callback) : Callback × Option Nat :=
  match s with
  | Callback.filled f => (Callback.borrowed, some f)
  | _ => (Callback.borrowed, none)

/-- `CallbackRef::drop` (`comm_ctrl.rs` lines 227-238): re-attach the
detached payload only if the cell is still Borrowed; if something else
wrote to the cell meanwhile, keep that newer value and discard the
payload. -/
def CallbackRef.drop (s : Callback) (payload : Option Nat) : Callback :=
  match s with
  | Callback.borrowed =>
    match payload with
    | some f => Callback.filled f
    | none => Callback.empty
  | _ => s

/-- `CallbackCell::with` (`comm_ctrl.rs` lines 214-217): borrow, run the
user-supplied function on the payload if there is one, then drop the
borrow.  The executing callback receives the cell in its detached state
and may operate on it (`g` maps the callback code and the cell state to
the new cell state); the Bool reports whether a callback was invoked. -/
def CallbackCell.withCb (s : Callback) (g : Nat → Callback → Callback) : Callback × Bool :=
  match CallbackCell.borrow s with
  | (s1, some f) => (CallbackRef.drop (g f s1) (some f), true)
  | (s1, none) => (CallbackRef.drop s1 none, false)

/-- C3 counterexample: invoking a Filled slot whose callback makes one
nested invoke attempt ends with the slot Empty — the callback is lost —
whereas the identical invocation without the nested attempt re-fills the
slot.  The nested attempt invokes nothing but is not a no-op: the nested
`CallbackRef::drop` sees the cell Borrowed with an empty payload and
writes Empty, so the outer drop no longer sees Borrowed and discards the
detached callback. -/
theorem callback_nested_invoke_not_noop_cex :
    CallbackCell.withCb (Callback.filled 5)
      (fun _ s => (CallbackCell.withCb s (fun _ s2 => s2)).1) = (Callback.empty, true) ∧
    CallbackCell.withCb (Callback.filled 5) (fun _ s => s) = (Callback.filled 5, true) := by
  exact ⟨rfl, rfl⟩

/-- C3 (amended): `invoke()` never reenters the same callback — a nested
attempt to invoke an Executing (Borrowed) slot invokes nothing — but the
nested attempt is not a state no-op: it rewrites the slot to Empty, so
after the outer invocation completes the detached callback is discarded
and the slot is Empty rather than re-Filled. -/
theorem callback_nested_invoke_amended :
    (∀ g, CallbackCell.withCb Callback.borrowed g = (Callback.empty, false)) ∧
    (∀ f g, CallbackCell.withCb (Callback.filled f)
      (fun _ s => (CallbackCell.withCb s g).1) = (Callback.empty, true)) :=
  ⟨fun _ => rfl, fun _ _ => rfl⟩

/-- C6: `set` during execution takes effect for future invocations (the
newly stored value survives the outer drop and the detached instance is
discarded); `invoke` on a Filled slot runs the callback detached and
re-attaches the same callback exactly when the slot is still Executing
(Borrowed) afterwards, i.e. nothing wrote to it meanwhile. -/
theorem callback_set_during_execution :
    (∀ f g, g f Callback.borrowed = Callback.borrowed →
      CallbackCell.withCb (Callback.filled f) g = (Callback.filled f, true)) ∧
    (∀ f g, g f Callback.borrowed ≠ Callback.borrowed →
      CallbackCell.withCb (Callback.filled f) g = (g f Callback.borrowed, true)) ∧
    (∀ f v, CallbackCell.withCb (Callback.filled f)
      (fun _ s => CallbackCell.set s v) = (CallbackCell.set Callback.borrowed v, true)) := by
  refine ⟨?_, ?_, ?_⟩
  · intro f g hg
    show (CallbackRef.drop (g f Callback.borrowed) (some f), true) = (Callback.filled f, true)
    rw [hg]
    rfl
  · intro f g hg
    show (CallbackRef.drop (g f Callback.borrowed) (some f), true) =
      (g f Callback.borrowed, true)
    cases ht : g f Callback.borrowed with
    | empty => rfl
    | filled x => rfl
    | borrowed => exact absurd ht hg
  · intro f v
    cases v with
    | some x => rfl
    | none => rfl

/-- Witness for `callback_set_during_execution`: an untouched slot
re-attaches callback 1; a callback that clears the slot during its own
execution wins over the re-attach; a `set` to callback 2 during execution
of callback 1 leaves the slot Filled with 2. -/
theorem callback_set_during_execution_witness :
    ((fun (_ : Nat) (s : Callback) => s) 1 Callback.borrowed = Callback.borrowed ∧
      CallbackCell.withCb (Callback.filled 1) (fun _ s => s) = (Callback.filled 1, true)) ∧
    ((fun (_ : Nat) (_ : Callback) => Callback.empty) 1 Callback.borrowed ≠
        Callback.borrowed ∧
      CallbackCell.withCb (Callback.filled 1) (fun _ _ => Callback.empty) =
        (Callback.empty, true)) ∧
    CallbackCell.withCb (Callback.filled 1) (fun _ s => CallbackCell.set s (some 2)) =
      (CallbackCell.set Callback.borrowed (some 2), true) :=
  ⟨⟨rfl, callback_set_during_execution.1 1 (fun _ s => s) rfl⟩,
   ⟨by decide, callback_set_during_execution.2.1 1 (fun _ _ => Callback.empty) (by decide)⟩,
   callback_set_during_execution.2.2 1 (some 2)⟩

/-- RGBA color, modelling `Color(u8, u8, u8, u8)` of `lib.rs`. -/
abbrev Color := Nat × Nat × Nat × Nat

/-- The error enum of `comm_ctrl.rs` (lines 22-32): a wrapped Windows error
code, the Destroyed error, or the unsupported-bitmap-format error. -/
inductive Error where
  | windows (code : Nat)
  | destroyed
  | unsupportedBitmapFormat
deriving DecidableEq, Repr

/-- Native calls a `WindowImpl` operation can issue, recorded in order. -/
inductive NCall where
  | setText (h : Nat) (t : String)
  | getWindowRect (h : Nat)
  | setWindowPos (h : Nat) (x y cx cy : Int)
  | showWindow (h : Nat) (visible : Bool)
  | invalidateRect (h : Nat)
  | destroyWindow (h : Nat)
  | createWindow (parent : Nat) (controlClass : Option String)
  | getDC (h : Nat)
  | createCompatibleBitmap (h : Nat)
  | createCompatibleDC
  | selectObject
  | printWindow (h : Nat)
  | getDIBits
deriving DecidableEq, Repr

/-- A `WindowImpl` node (`comm_ctrl.rs` lines 242-251): the `hwnd` cell
(`none` models a null `HWND`, i.e. a Destroyed node), the background color
option, and the strongly-owned ordered children list. -/
inductive Win where
  | mk (hwnd : Option Nat) (background : Option Color) (children : List Win)

/-- The `hwnd` field of a node. -/
def Win.hwnd : Win → Option Nat
  | Win.mk h _ _ => h

/-- The `background` option of a node. -/
def Win.background : Win → Option Color
  | Win.mk _ b _ => b

/-- The owned children list of a node. -/
def Win.children : Win → List Win
  | Win.mk _ _ c => c

/-- `WindowImpl::live` (`comm_ctrl.rs` lines 369-371): a node is live iff
its `hwnd` cell is non-null. -/
def Win.live (w : Win) : Bool := w.hwnd.isSome

/-- `WindowImpl::check_live` (`comm_ctrl.rs` lines 373-379): `Err(Destroyed)`
when not live. -/
def check_live (w : Win) : Except Error Unit :=
  if w.live = true then Except.ok () else Except.error Error.destroyed

/-- Responses of the native runtime consumed by the operations: each field
is the outcome the corresponding Win32 call would produce. -/
structure NOracle where
  setTextRes : Except Nat Unit
  getRectRes : Except Nat (Int × Int × Int × Int)
  setPosRes : Except Nat Unit
  destroyRes : Except Nat Unit
  createRes : Except Nat Nat
  getDCRes : Except Nat Nat
  createBitmapRes : Except Nat Nat
  createDCRes : Except Nat Nat
  selectRes : Except Nat Nat
  printOk : Bool
  dibOk1 : Bool
  dibOk2 : Bool
  lastError : Nat
  dibBitCount : Nat
  dibPlanes : Nat
  dibSizeImage : Nat
  dibWidth : Int
  dibHeight : Int
  dibBits : List Nat

/-- Outcome of one operation: the node afterwards, the result, and the
native calls issued, in order. -/
structure OpRes (α : Type) where
  win : Win
  res : Except Error α
  calls : List NCall

/-- `Window::text` (`comm_ctrl.rs` lines 615-621): `check_live()?`, then
`SetWindowTextW`.  The `none` branch of the match is the `check_live`
failure: no native call, no state change. -/
def textOp (w : Win) (o : NOracle) (t : String) : OpRes Unit :=
  match w.hwnd with
  | none => OpRes.mk w (Except.error Error.destroyed) []
  | some h =>
    match o.setTextRes with
    | Except.ok _ => OpRes.mk w (Except.ok ()) [NCall.setText h t]
    | Except.error e => OpRes.mk w (Except.error (Error.windows e)) [NCall.setText h t]

/-- `Window::bounds` (`comm_ctrl.rs` lines 623-662): `check_live()?`, then
`GetWindowRect`, merge the optional new upper-left corner and size, then
`SetWindowPos`. -/
def boundsOp (w : Win) (o : NOracle) (ul sz : Option (Int × Int)) : OpRes Unit :=
  match w.hwnd with
  | none => OpRes.mk w (Except.error Error.destroyed) []
  | some h =>
    match o.getRectRes with
    | Except.error e => OpRes.mk w (Except.error (Error.windows e)) [NCall.getWindowRect h]
    | Except.ok (l, t, r, b) =>
      let x := match ul with | some q => q.1 | none => l
      let y := match ul with | some q => q.2 | none => t
      let cx := match sz with | some q => q.1 | none => r - l
      let cy := match sz with | some q => q.2 | none => b - t
      match o.setPosRes with
      | Except.ok _ =>
        OpRes.mk w (Except.ok ()) [NCall.getWindowRect h, NCall.setWindowPos h x y cx cy]
      | Except.error e =>
        OpRes.mk w (Except.error (Error.windows e))
          [NCall.getWindowRect h, NCall.setWindowPos h x y cx cy]

/-- `Window::redraw` (`comm_ctrl.rs` lines 694-700): `check_live()?`, then
`InvalidateRect` (whose result the code ignores). -/
def redrawOp (w : Win) : OpRes Unit :=
  match w.hwnd with
  | none => OpRes.mk w (Except.error Error.destroyed) []
  | some h => OpRes.mk w (Except.ok ()) [NCall.invalidateRect h]

/-- `Window::background` (`comm_ctrl.rs` lines 664-668): `check_live()?`,
store the color in the options, then `self.redraw()`. -/
def backgroundOp (w : Win) (c : Color) : OpRes Unit :=
  match w.hwnd with
  | none => OpRes.mk w (Except.error Error.destroyed) []
  | some h => redrawOp (Win.mk (some h) (some c) w.children)

/-- `Window::visible` (`comm_ctrl.rs` lines 670-676): `check_live()?`, then
`ShowWindow` (whose result the code ignores). -/
def visibleOp (w : Win) (vis : Bool) : OpRes Unit :=
  match w.hwnd with
  | none => OpRes.mk w (Except.error Error.destroyed) []
  | some h => OpRes.mk w (Except.ok ()) [NCall.showWindow h vis]

/-- The child-type enum of `lib.rs` (lines 11-20); the `EditOptions` style
translation is out of scope, so `edit` carries no options. -/
inductive ChildType where
  | custom
  | button
  | defaultButton
  | checkbox
  | tristateCheckbox
  | groupbox
  | radio
  | edit
deriving DecidableEq, Repr

/-- The comctl32 class each child type is created with (`comm_ctrl.rs`
lines 572-609): `Custom` uses the registered general class (`None`), the
button family uses `BUTTON`, and edit fields use `EDIT`. -/
def childClass : ChildType → Option String
  | ChildType.custom => none
  | ChildType.edit => some "EDIT"
  | _ => some "BUTTON"

/-- `Window::new_child` (`comm_ctrl.rs` lines 556-613): `check_live()?`,
create the native child through `WindowImpl::new`, then push the new node
onto the children list and return it.  On a native creation failure the
error propagates before the push. -/
def new_child (w : Win) (o : NOracle) (ty : ChildType) : OpRes Win :=
  match w.hwnd with
  | none => OpRes.mk w (Except.error Error.destroyed) []
  | some h =>
    match o.createRes with
    | Except.error e =>
      OpRes.mk w (Except.error (Error.windows e)) [NCall.createWindow h (childClass ty)]
    | Except.ok ch =>
      OpRes.mk (Win.mk (some h) w.background (w.children ++ [Win.mk (some ch) none []]))
        (Except.ok (Win.mk (some ch) none []))
        [NCall.createWindow h (childClass ty)]

/-- `WindowImpl::destroy` (`comm_ctrl.rs` lines 356-367): read the handle;
if it is null, return `Ok(())` without any native call; otherwise call
`DestroyWindow` and return its result.  The node's `hwnd` cell and children
are not touched here — they are cleared later by the `WM_NCDESTROY` arm of
the window procedure. -/
def destroyOp (w : Win) (o : NOracle) : OpRes Unit :=
  match w.hwnd with
  | none => OpRes.mk w (Except.ok ()) []
  | some h =>
    match o.destroyRes with
    | Except.ok _ => OpRes.mk w (Except.ok ()) [NCall.destroyWindow h]
    | Except.error e => OpRes.mk w (Except.error (Error.windows e)) [NCall.destroyWindow h]

/-- C7: on a node that is not Live (`hwnd` cell null), every mutating
operation — retext, reposition/resize, recolor, visibility toggle, redraw,
create-child — returns the Destroyed error, issues no native call, and
changes no state; in particular `new_child` creates no native object and
appends nothing to the children list. -/
theorem mutating_ops_destroyed :
    ∀ w o t ul sz c vis ty, w.hwnd = none →
      textOp w o t = OpRes.mk w (Except.error Error.destroyed) [] ∧
      boundsOp w o ul sz = OpRes.mk w (Except.error Error.destroyed) [] ∧
      backgroundOp w c = OpRes.mk w (Except.error Error.destroyed) [] ∧
      visibleOp w vis = OpRes.mk w (Except.error Error.destroyed) [] ∧
      redrawOp w = OpRes.mk w (Except.error Error.destroyed) [] ∧
      new_child w o ty = OpRes.mk w (Except.error Error.destroyed) [] := by
  intro w o t ul sz c vis ty hw
  refine ⟨?_, ?_, ?_, ?_, ?_, ?_⟩
  · unfold textOp; rw [hw]
  · unfold boundsOp; rw [hw]
  · unfold backgroundOp; rw [hw]
  · unfold visibleOp; rw [hw]
  · unfold redrawOp; rw [hw]
  · unfold new_child; rw [hw]

/-- A destroyed node with a non-trivial children list, to witness that the
list survives untouched. -/
def wDead : Win := Win.mk none (some (1, 2, 3, 4)) [Win.mk (some 9) none []]

/-- A concrete oracle; its values are irrelevant to the destroyed paths. -/
def oracle0 : NOracle :=
  NOracle.mk (Except.ok ()) (Except.ok (0, 0, 100, 50)) (Except.ok ()) (Except.ok ())
    (Except.ok 11) (Except.ok 21) (Except.ok 22) (Except.ok 23) (Except.ok 24)
    true true true 87 32 1 8 100 (-50) [0x11223344, 0xAABBCCDD]

/-- Witness for `mutating_ops_destroyed` on a concrete destroyed node. -/
theorem mutating_ops_destroyed_witness :
    wDead.hwnd = none ∧
    (textOp wDead oracle0 "x" = OpRes.mk wDead (Except.error Error.destroyed) [] ∧
     boundsOp wDead oracle0 (some (1, 2)) none = OpRes.mk wDead (Except.error Error.destroyed) [] ∧
     backgroundOp wDead (5, 6, 7, 8) = OpRes.mk wDead (Except.error Error.destroyed) [] ∧
     visibleOp wDead true = OpRes.mk wDead (Except.error Error.destroyed) [] ∧
     redrawOp wDead = OpRes.mk wDead (Except.error Error.destroyed) [] ∧
     new_child wDead oracle0 ChildType.button = OpRes.mk wDead (Except.error Error.destroyed) []) :=
  ⟨rfl, mutating_ops_destroyed wDead oracle0 "x" (some (1, 2)) none (5, 6, 7, 8) true
    ChildType.button rfl⟩

/-- C8: `destroy()` on an already-Destroyed node is a no-op returning
success — no native call, no state change; on a Live node it only issues
the `DestroyWindow` request, mapping the native result, and leaves the
node (handle cell and children list) untouched. -/
theorem destroy_requests_only :
    (∀ w o, w.hwnd = none → destroyOp w o = OpRes.mk w (Except.ok ()) []) ∧
    (∀ w o h, w.hwnd = some h →
      (destroyOp w o).win = w ∧ (destroyOp w o).calls = [NCall.destroyWindow h] ∧
      (destroyOp w o).res = (match o.destroyRes with
        | Except.ok _ => Except.ok ()
        | Except.error e => Except.error (Error.windows e))) := by
  constructor
  · intro w o hw
    unfold destroyOp; rw [hw]
  · intro w o h hw
    unfold destroyOp
    rw [hw]
    cases o.destroyRes with
    | ok u => exact ⟨rfl, rfl, rfl⟩
    | error e => exact ⟨rfl, rfl, rfl⟩

/-- A live node with a child, to witness that `destroy` only requests. -/
def wLive : Win := Win.mk (some 3) none [Win.mk (some 9) none []]

/-- Witness for `destroy_requests_only`: success no-op on a destroyed node;
request-only behavior on a live node. -/
theorem destroy_requests_only_witness :
    (wDead.hwnd = none ∧ destroyOp wDead oracle0 = OpRes.mk wDead (Except.ok ()) []) ∧
    (wLive.hwnd = some 3 ∧ (destroyOp wLive oracle0).win = wLive ∧
      (destroyOp wLive oracle0).calls = [NCall.destroyWindow 3] ∧
      (destroyOp wLive oracle0).res = (match oracle0.destroyRes with
        | Except.ok _ => Except.ok ()
        | Except.error e => Except.error (Error.windows e))) :=
  ⟨⟨rfl, destroy_requests_only.1 wDead oracle0 rfl⟩,
   ⟨rfl, destroy_requests_only.2 wLive oracle0 3 rfl⟩⟩

/-- Shifting a disjunction right distributes over both operands. -/
theorem nat_or_shiftRight (a b n : Nat) : (a ||| b) >>> n = a >>> n ||| b >>> n := by
  apply Nat.eq_of_testBit_eq
  intro i
  simp [Nat.testBit_shiftRight, Nat.testBit_or]

/-- Shifting a conjunction right distributes over both operands. -/
theorem nat_and_shiftRight (a b n : Nat) : (a &&& b) >>> n = a >>> n &&& b >>> n := by
  apply Nat.eq_of_testBit_eq
  intro i
  simp [Nat.testBit_shiftRight, Nat.testBit_and]

/-- Masking a disjunction distributes over both operands. -/
theorem nat_or_and_right (a b c : Nat) : (a ||| b) &&& c = (a &&& c) ||| (b &&& c) := by
  apply Nat.eq_of_testBit_eq
  intro i
  simp [Nat.testBit_or, Nat.testBit_and, Bool.and_or_distrib_right]

/-- Masking with the low byte is reduction modulo 256. -/
theorem nat_and_255 (a : Nat) : a &&& 255 = a % 256 := by
  have h : (255 : Nat) = 2 ^ 8 - 1 := by norm_num
  have h2 : (256 : Nat) = 2 ^ 8 := by norm_num
  rw [h, h2, Nat.and_pow_two_sub_one_eq_mod]

/-- A 16-bit left shift in arithmetic form. -/
theorem nat_shiftL16 (x : Nat) : x <<< 16 = x * 65536 := by
  rw [Nat.shiftLeft_eq]

/-- An 8-bit right shift in arithmetic form. -/
theorem nat_shiftR8 (x : Nat) : x >>> 8 = x / 256 := by
  rw [Nat.shiftRight_eq_div_pow]

/-- A 16-bit right shift in arithmetic form. -/
theorem nat_shiftR16 (x : Nat) : x >>> 16 = x / 65536 := by
  rw [Nat.shiftRight_eq_div_pow]

/-- A 24-bit right shift in arithmetic form. -/
theorem nat_shiftR24 (x : Nat) : x >>> 24 = x / 16777216 := by
  rw [Nat.shiftRight_eq_div_pow]

/-- The per-pixel conversion of `snapshot` (`comm_ctrl.rs` lines 764-769):
force the alpha byte to 0xFF and swap the red and blue channels of the
native 0xAARRGGBB pixel, producing the 0xAABBGGRR layout `Bitmap`
documents. -/
def convertPixel (p : Nat) : Nat :=
  0xff000000 ||| ((p &&& 0xff) <<< 16) ||| (p &&& 0xff00) ||| ((p &&& 0xff0000) >>> 16)

/-- The converted pixel always fits in 32 bits. -/
theorem convertPixel_lt (p : Nat) : convertPixel p < 2 ^ 32 := by
  unfold convertPixel
  refine Nat.or_lt_two_pow (Nat.or_lt_two_pow (Nat.or_lt_two_pow ?_ ?_) ?_) ?_
  · norm_num
  · rw [nat_shiftL16]
    calc (p &&& 0xff) * 65536 ≤ 0xff * 65536 := Nat.mul_le_mul_right _ Nat.and_le_right
    _ < 2 ^ 32 := by norm_num
  · calc p &&& 0xff00 ≤ 0xff00 := Nat.and_le_right
    _ < 2 ^ 32 := by norm_num
  · rw [nat_shiftR16]
    calc (p &&& 0xff0000) / 65536 ≤ 0xff0000 / 65536 :=
      Nat.div_le_div_right Nat.and_le_right
    _ < 2 ^ 32 := by norm_num

/-- The alpha byte of every converted pixel is 0xFF. -/
theorem convertPixel_alpha (p : Nat) : convertPixel p >>> 24 = 0xff := by
  unfold convertPixel
  rw [nat_or_shiftRight, nat_or_shiftRight, nat_or_shiftRight]
  have hA : ((p &&& 0xff) <<< 16) >>> 24 = 0 := by
    rw [nat_shiftL16, nat_shiftR24]
    apply Nat.div_eq_of_lt
    calc (p &&& 0xff) * 65536 ≤ 0xff * 65536 := Nat.mul_le_mul_right _ Nat.and_le_right
    _ < 16777216 := by norm_num
  have hB : (p &&& 0xff00) >>> 24 = 0 := by
    rw [nat_shiftR24]
    apply Nat.div_eq_of_lt
    calc p &&& 0xff00 ≤ 0xff00 := Nat.and_le_right
    _ < 16777216 := by norm_num
  have hC : ((p &&& 0xff0000) >>> 16) >>> 24 = 0 := by
    rw [nat_shiftR16, nat_shiftR24]
    apply Nat.div_eq_of_lt
    calc (p &&& 0xff0000) / 65536 ≤ 0xff0000 / 65536 := Nat.div_le_div_right Nat.and_le_right
    _ < 16777216 := by norm_num
  rw [hA, hB, hC]
  decide

/-- Byte 0 of the converted pixel is the red channel (byte 2) of the native
pixel. -/
theorem convertPixel_red (p : Nat) : convertPixel p &&& 0xff = (p >>> 16) &&& 0xff := by
  unfold convertPixel
  rw [nat_or_and_right, nat_or_and_right, nat_or_and_right]
  have h0 : (0xff000000 : Nat) &&& 0xff = 0 := by decide
  have hA : ((p &&& 0xff) <<< 16) &&& 0xff = 0 := by
    rw [nat_shiftL16, nat_and_255]
    omega
  have hB : (p &&& 0xff00) &&& 0xff = 0 := by
    have hc : (0xff00 : Nat) &&& 0xff = 0 := by decide
    rw [Nat.and_assoc, hc, Nat.and_zero]
  have hC : ((p &&& 0xff0000) >>> 16) &&& 0xff = (p >>> 16) &&& 0xff := by
    have hc : (0xff0000 : Nat) >>> 16 = 0xff := by decide
    have hd : (0xff : Nat) &&& 0xff = 0xff := by decide
    rw [nat_and_shiftRight, hc, Nat.and_assoc, hd]
  rw [h0, hA, hB, hC, Nat.zero_or, Nat.zero_or, Nat.zero_or]

/-- Byte 1 of the converted pixel is the green channel (byte 1) of the
native pixel. -/
theorem convertPixel_green (p : Nat) :
    (convertPixel p >>> 8) &&& 0xff = (p >>> 8) &&& 0xff := by
  unfold convertPixel
  rw [nat_or_shiftRight, nat_or_shiftRight, nat_or_shiftRight]
  rw [nat_or_and_right, nat_or_and_right, nat_or_and_right]
  have h0 : ((0xff000000 : Nat) >>> 8) &&& 0xff = 0 := by decide
  have hA : (((p &&& 0xff) <<< 16) >>> 8) &&& 0xff = 0 := by
    rw [nat_shiftL16, nat_shiftR8, nat_and_255]
    omega
  have hB : ((p &&& 0xff00) >>> 8) &&& 0xff = (p >>> 8) &&& 0xff := by
    have hc : (0xff00 : Nat) >>> 8 = 0xff := by decide
    have hd : (0xff : Nat) &&& 0xff = 0xff := by decide
    rw [nat_and_shiftRight, hc, Nat.and_assoc, hd]
  have hC : (((p &&& 0xff0000) >>> 16) >>> 8) &&& 0xff = 0 := by
    have hz : ((p &&& 0xff0000) >>> 16) >>> 8 = 0 := by
      rw [nat_shiftR16, nat_shiftR8]
      have hle : (p &&& 0xff0000) / 65536 ≤ 0xff := by
        calc (p &&& 0xff0000) / 65536 ≤ 0xff0000 / 65536 :=
          Nat.div_le_div_right Nat.and_le_right
        _ = 0xff := by norm_num
      omega
    rw [hz]
    decide
  rw [h0, hA, hB, hC, Nat.zero_or, Nat.zero_or, Nat.or_zero]

/-- Byte 2 of the converted pixel is the blue channel (byte 0) of the
native pixel. -/
theorem convertPixel_blue (p : Nat) :
    (convertPixel p >>> 16) &&& 0xff = p &&& 0xff := by
  unfold convertPixel
  rw [nat_or_shiftRight, nat_or_shiftRight, nat_or_shiftRight]
  rw [nat_or_and_right, nat_or_and_right, nat_or_and_right]
  have h0 : ((0xff000000 : Nat) >>> 16) &&& 0xff = 0 := by decide
  have hA : (((p &&& 0xff) <<< 16) >>> 16) &&& 0xff = p &&& 0xff := by
    have hz : ((p &&& 0xff) <<< 16) >>> 16 = p &&& 0xff := by
      rw [nat_shiftL16, nat_shiftR16]
      omega
    have hd : (0xff : Nat) &&& 0xff = 0xff := by decide
    rw [hz, Nat.and_assoc, hd]
  have hB : ((p &&& 0xff00) >>> 16) &&& 0xff = 0 := by
    have hz : (p &&& 0xff00) >>> 16 = 0 := by
      rw [nat_shiftR16]
      apply Nat.div_eq_of_lt
      calc p &&& 0xff00 ≤ 0xff00 := Nat.and_le_right
      _ < 65536 := by norm_num
    rw [hz]
    decide
  have hC : (((p &&& 0xff0000) >>> 16) >>> 16) &&& 0xff = 0 := by
    have hz : ((p &&& 0xff0000) >>> 16) >>> 16 = 0 := by
      rw [nat_shiftR16, nat_shiftR16]
      have hle : (p &&& 0xff0000) / 65536 ≤ 0xff := by
        calc (p &&& 0xff0000) / 65536 ≤ 0xff0000 / 65536 :=
          Nat.div_le_div_right Nat.and_le_right
        _ = 0xff := by norm_num
      omega
    rw [hz]
    decide
  rw [h0, hA, hB, hC, Nat.zero_or, Nat.or_zero, Nat.or_zero]

/-- The `Bitmap` of `lib.rs` (lines 74-81): width, height, and pixel data
in 0xAABBGGRR layout, one `u32` per pixel. -/
structure Bitmap where
  width : Nat
  height : Nat
  data : List Nat
deriving DecidableEq, Repr

/-- `Window::snapshot` (`comm_ctrl.rs` lines 702-776): `check_live()?`,
`GetWindowRect`, a window DC, a compatible bitmap and memory DC, select,
`PrintWindow`, a header-only `GetDIBits`, the format checks (32 bpp, one
plane, non-zero word-aligned image size), the pixel `GetDIBits`, then the
in-place conversion of every pixel by `convertPixel`. -/
def snapshotOp (w : Win) (o : NOracle) : OpRes Bitmap :=
  match w.hwnd with
  | none => OpRes.mk w (Except.error Error.destroyed) []
  | some h =>
    match o.getRectRes with
    | Except.error e => OpRes.mk w (Except.error (Error.windows e)) [NCall.getWindowRect h]
    | Except.ok _rect =>
      match o.getDCRes with
      | Except.error e =>
        OpRes.mk w (Except.error (Error.windows e)) [NCall.getWindowRect h, NCall.getDC h]
      | Except.ok _dc =>
        match o.createBitmapRes with
        | Except.error e =>
          OpRes.mk w (Except.error (Error.windows e))
            [NCall.getWindowRect h, NCall.getDC h, NCall.createCompatibleBitmap h]
        | Except.ok _bm =>
          match o.createDCRes with
          | Except.error e =>
            OpRes.mk w (Except.error (Error.windows e))
              [NCall.getWindowRect h, NCall.getDC h, NCall.createCompatibleBitmap h,
               NCall.createCompatibleDC]
          | Except.ok _mdc =>
            match o.selectRes with
            | Except.error e =>
              OpRes.mk w (Except.error (Error.windows e))
                [NCall.getWindowRect h, NCall.getDC h, NCall.createCompatibleBitmap h,
                 NCall.createCompatibleDC, NCall.selectObject]
            | Except.ok _old =>
              if o.printOk = false then
                OpRes.mk w (Except.error (Error.windows o.lastError))
                  [NCall.getWindowRect h, NCall.getDC h, NCall.createCompatibleBitmap h,
                   NCall.createCompatibleDC, NCall.selectObject, NCall.printWindow h]
              else if o.dibOk1 = false then
                OpRes.mk w (Except.error (Error.windows o.lastError))
                  [NCall.getWindowRect h, NCall.getDC h, NCall.createCompatibleBitmap h,
                   NCall.createCompatibleDC, NCall.selectObject, NCall.printWindow h,
                   NCall.getDIBits]
              else if o.dibBitCount ≠ 32 ∨ o.dibPlanes ≠ 1 ∨ o.dibSizeImage = 0 ∨
                  o.dibSizeImage % 4 ≠ 0 then
                OpRes.mk w (Except.error Error.unsupportedBitmapFormat)
                  [NCall.getWindowRect h, NCall.getDC h, NCall.createCompatibleBitmap h,
                   NCall.createCompatibleDC, NCall.selectObject, NCall.printWindow h,
                   NCall.getDIBits]
              else if o.dibOk2 = false then
                OpRes.mk w (Except.error (Error.windows o.lastError))
                  [NCall.getWindowRect h, NCall.getDC h, NCall.createCompatibleBitmap h,
                   NCall.createCompatibleDC, NCall.selectObject, NCall.printWindow h,
                   NCall.getDIBits, NCall.getDIBits]
              else
                OpRes.mk w
                  (Except.ok (Bitmap.mk o.dibWidth.toNat o.dibHeight.natAbs
                    (((List.range (o.dibSizeImage / 4)).map
                      (fun i => o.dibBits.getD i 0)).map convertPixel)))
                  [NCall.getWindowRect h, NCall.getDC h, NCall.createCompatibleBitmap h,
                   NCall.createCompatibleDC, NCall.selectObject, NCall.printWindow h,
                   NCall.getDIBits, NCall.getDIBits]

/-- C10: every pixel of a successful `snapshot` is the conversion of a
native pixel, and the conversion always yields a 32-bit value whose alpha
byte is 0xFF (the image is fully opaque, whatever alpha the native runtime
produced) with the red and blue channels of the native 0xAARRGGBB pixel
swapped into the 0xAABBGGRR layout: byte 0 is the native red channel,
byte 1 the native green channel, byte 2 the native blue channel. -/
theorem snapshot_pixel_format :
    ∀ w o w2 bmp calls, snapshotOp w o = OpRes.mk w2 (Except.ok bmp) calls →
      (∀ q ∈ bmp.data, ∃ p, q = convertPixel p) ∧
      (∀ p, convertPixel p < 2 ^ 32 ∧ convertPixel p >>> 24 = 0xff ∧
        convertPixel p &&& 0xff = (p >>> 16) &&& 0xff ∧
        (convertPixel p >>> 8) &&& 0xff = (p >>> 8) &&& 0xff ∧
        (convertPixel p >>> 16) &&& 0xff = p &&& 0xff) := by
  intro w o w2 bmp calls h
  constructor
  · unfold snapshotOp at h
    split at h
    · exact absurd h (by simp [OpRes.mk.injEq])
    · split at h
      · exact absurd h (by simp [OpRes.mk.injEq])
      · split at h
        · exact absurd h (by simp [OpRes.mk.injEq])
        · split at h
          · exact absurd h (by simp [OpRes.mk.injEq])
          · split at h
            · exact absurd h (by simp [OpRes.mk.injEq])
            · split at h
              · exact absurd h (by simp [OpRes.mk.injEq])
              · split at h
                · exact absurd h (by simp [OpRes.mk.injEq])
                · split at h
                  · exact absurd h (by simp [OpRes.mk.injEq])
                  · split at h
                    · exact absurd h (by simp [OpRes.mk.injEq])
                    · split at h
                      · exact absurd h (by simp [OpRes.mk.injEq])
                      · simp only [OpRes.mk.injEq, Except.ok.injEq] at h
                        obtain ⟨-, hbm, -⟩ := h
                        subst hbm
                        intro q hq
                        rw [List.mem_map] at hq
                        obtain ⟨p, -, hqe⟩ := hq
                        exact ⟨p, hqe.symm⟩
  · intro p
    exact ⟨convertPixel_lt p, convertPixel_alpha p, convertPixel_red p,
      convertPixel_green p, convertPixel_blue p⟩

/-- The bitmap a snapshot of `wLive` produces under `oracle0`. -/
def bmpW : Bitmap := Bitmap.mk 100 50 [convertPixel 0x11223344, convertPixel 0xAABBCCDD]

/-- The native calls a successful snapshot of `wLive` issues. -/
def snapCalls : List NCall :=
  [NCall.getWindowRect 3, NCall.getDC 3, NCall.createCompatibleBitmap 3,
   NCall.createCompatibleDC, NCall.selectObject, NCall.printWindow 3,
   NCall.getDIBits, NCall.getDIBits]

/-- Witness for `snapshot_pixel_format` on a concrete successful snapshot:
every returned pixel is a conversion, and the conversion of the concrete
native pixel 0x11223344 is opaque with swapped channels. -/
theorem snapshot_pixel_format_witness :
    snapshotOp wLive oracle0 = OpRes.mk wLive (Except.ok bmpW) snapCalls ∧
    (∀ q ∈ bmpW.data, ∃ p, q = convertPixel p) ∧
    (convertPixel 0x11223344 >>> 24 = 0xff ∧
      convertPixel 0x11223344 &&& 0xff = (0x11223344 >>> 16) &&& 0xff) :=
  ⟨rfl,
   (snapshot_pixel_format wLive oracle0 wLive bmpW snapCalls rfl).1,
   ⟨((snapshot_pixel_format wLive oracle0 wLive bmpW snapCalls rfl).2 0x11223344).2.1,
    ((snapshot_pixel_format wLive oracle0 wLive bmpW snapCalls rfl).2 0x11223344).2.2.1⟩⟩

/-- The fallback handler each raw entry point binds for unhandled
messages. -/
inductive DefaultHandler where
  | defWindowProcW
  | defSubclassProc
deriving DecidableEq, Repr

/-- What a raw entry point passes to the user dispatch logic
(`WindowProc::wndproc`): the `commctrl` flag distinguishing subclassed from
primary entry, and the bound default handler. -/
structure EntryPointFlags where
  commctrl : Bool
  defaultHandler : DefaultHandler
deriving DecidableEq, Repr

/-- `wndproc_wrappers.rs` lines 248-254: the primary entry point invokes
`wndproc(false, …)` with `DefWindowProcW` bound as default. -/
def wndprocWrappers.static_wndproc_flags : EntryPointFlags :=
  EntryPointFlags.mk false DefaultHandler.defWindowProcW

/-- `wndproc_wrappers.rs` lines 308-314: the subclassed entry point invokes
`wndproc(true, …)` with `DefSubclassProc` bound as default. -/
def wndprocWrappers.static_subclass_wndproc_flags : EntryPointFlags :=
  EntryPointFlags.mk true DefaultHandler.defSubclassProc

/-- `object_wrappers.rs` lines 322-328: the primary entry point invokes
`wndproc(false, …)` with `DefWindowProcW` bound as default. -/
def objectWrappers.static_wndproc_flags : EntryPointFlags :=
  EntryPointFlags.mk false DefaultHandler.defWindowProcW

/-- `object_wrappers.rs` lines 382-388: the subclassed entry point invokes
`wndproc(false, …)` — the flag literal at line 383 is `false` — with
`DefSubclassProc` bound as default. -/
def objectWrappers.static_subclass_wndproc_flags : EntryPointFlags :=
  EntryPointFlags.mk false DefaultHandler.defSubclassProc

/-- C9: the flag each raw entry point passes, as written in the source.
The subclassed entry point of `object_wrappers.rs` passes `commctrl =
false` even though it is registered through `SetWindowSubclass` and its own
trait documentation requires `true` exactly for subclass procedures; the
sibling `wndproc_wrappers.rs` subclassed entry passes `true`.  Both
subclassed entries do bind `DefSubclassProc` and both primary entries bind
`DefWindowProcW`. -/
theorem subclass_flag_divergence :
    wndprocWrappers.static_subclass_wndproc_flags.commctrl = true ∧
    objectWrappers.static_subclass_wndproc_flags.commctrl = false ∧
    wndprocWrappers.static_wndproc_flags.commctrl = false ∧
    objectWrappers.static_wndproc_flags.commctrl = false ∧
    wndprocWrappers.static_subclass_wndproc_flags.defaultHandler =
      DefaultHandler.defSubclassProc ∧
    objectWrappers.static_subclass_wndproc_flags.defaultHandler =
      DefaultHandler.defSubclassProc ∧
    wndprocWrappers.static_wndproc_flags.defaultHandler = DefaultHandler.defWindowProcW ∧
    objectWrappers.static_wndproc_flags.defaultHandler = DefaultHandler.defWindowProcW := by
  decide
